import Mathlib

/-!
Shallow embedding of `src/vmcheck/vmcheck/main.c` (SamuelTulach/vmcheck).

The driver reads hardware counters (`__rdtsc`, `__readmsr`) whose values the
code does not control; each probe is therefore parametrised by a read trace
`read : Nat → Nat` giving the value returned by the k-th counter read that
the probe performs.  All counter values and arithmetic are unsigned 64-bit:
values are `Nat`s reduced modulo `2 ^ 64` at every operation.  C's unsigned
division by zero is undefined behaviour and is modelled by `Option`
(`none` means the run has no defined result).
-/

/-- `2 ^ 64`, the modulus of `DWORD64` arithmetic. -/
def U64 : Nat := 2 ^ 64

/-- Reduce a value into unsigned 64-bit range. -/
def wrap (n : Nat) : Nat := n % U64

/-- Unsigned 64-bit subtraction `a - b` with wrap-around, as in C. -/
def usub64 (a b : Nat) : Nat := (U64 + a % U64 - b % U64) % U64

/-- Unsigned 64-bit division (operands already reduced).  Division by zero
is C undefined behaviour, modelled as `none`. -/
def udiv64 (a b : Nat) : Option Nat :=
  if b = 0 then none else some (a / b)

/-- The `TestResults` structure of `main.c` (the global `testResults`). -/
structure TestResults where
  RdtscCalculated : Nat
  RdtscFail : Bool
  TimestampCalculated : Nat
  TimestampFail : Bool
  AperfCalculated : Nat
  AperfFail : Bool
deriving Repr, DecidableEq

/-- The zero-initialised global `testResults` (static storage in C). -/
def initialTestResults : TestResults :=
  { RdtscCalculated := 0, RdtscFail := false, TimestampCalculated := 0,
    TimestampFail := false, AperfCalculated := 0, AperfFail := false }

/-- `total` accumulated by the 25000-iteration CPUID loop shared in shape by
`RdtscTiming` (counter read by `__rdtsc`) and `TimestampTiming` (counter read
by `__readmsr(IA32_TIME_STAMP_COUNTER)`): trace reads `2*i+2` and `2*i+3`
bracket the `__cpuid(data, 0)` call of loop iteration `i` (trace reads 0 and
1 are the two calibration reads taken before the loop). -/
def cpuidLoopTotal (read : Nat → Nat) : Nat → Nat
  | 0 => 0
  | i + 1 =>
      wrap (cpuidLoopTotal read i +
        usub64 (wrap (read (2 * i + 3))) (wrap (read (2 * i + 2))))

/-- Lines 68-70 of `main.c`: the classification step of `RdtscTiming`,
a function of the accumulated `total` and the calibration delta
(`calculated = 100000 * total / calibration`, fail iff `calculated > 200`). -/
def rdtscClassifyStep (total calibration : Nat) (s : TestResults) :
    Option TestResults :=
  match udiv64 (wrap (100000 * total)) calibration with
  | none => none
  | some calculated =>
      some { s with RdtscCalculated := calculated,
                    RdtscFail := decide (calculated > 200) }

/-- Lines 125-127 of `main.c`: the classification step of `TimestampTiming`
(`calculated = 100000 * total / calibration`, fail iff `calculated > 300`). -/
def timestampClassifyStep (total calibration : Nat) (s : TestResults) :
    Option TestResults :=
  match udiv64 (wrap (100000 * total)) calibration with
  | none => none
  | some calculated =>
      some { s with TimestampCalculated := calculated,
                    TimestampFail := decide (calculated > 300) }

/-- `RdtscTiming` of `main.c`.  `read k` is the value of the k-th `__rdtsc`
executed by the function: reads 0 and 1 are the calibration pair around the
1-second `KeDelayExecutionThread` sleep, reads `2*i+2` and `2*i+3` bracket
loop iteration `i`.  Writes `RdtscCalculated` and `RdtscFail` of the global
structure; `none` when `calibration = 0` (division by zero, C UB). -/
def RdtscTiming (read : Nat → Nat) (s : TestResults) : Option TestResults :=
  rdtscClassifyStep (cpuidLoopTotal read 25000)
    (usub64 (wrap (read 1)) (wrap (read 0))) s

/-- `TimestampTiming` of `main.c`: identical shape to `RdtscTiming`, the
counter being read from `IA32_TIME_STAMP_COUNTER` by `__readmsr` instead;
fail threshold 300. -/
def TimestampTiming (read : Nat → Nat) (s : TestResults) :
    Option TestResults :=
  timestampClassifyStep (cpuidLoopTotal read 25000)
    (usub64 (wrap (read 1)) (wrap (read 0))) s

/-- Line 167 of `main.c`: the APERF fail comparison `calculated < 10000`. -/
def aperfFailCheck (calculated : Nat) : Bool :=
  decide (calculated < 10000)

/-- `AperfTiming` of `main.c`.  `read 0` and `read 1` are the raw values of
the two `__readmsr(IA32_APERF_MSR)` reads bracketing the single
`__cpuid(data, 1)` call; each raw read is left-shifted by 32 bits
(`<< 32`, wrapping in 64 bits) before differencing.  No division occurs, so
the function is total. -/
def AperfTiming (read : Nat → Nat) (s : TestResults) : TestResults :=
  let start := wrap (read 0 <<< 32)
  let endValue := wrap (read 1 <<< 32)
  let calculated := usub64 endValue start
  { s with AperfCalculated := calculated,
           AperfFail := aperfFailCheck calculated }

/-! ## Kernel environment model

`PerformTests`, `PrintResults` and `DriverEntry` interact with the NT
kernel: processor lookup, thread group affinity, IRQL, the interrupt flag
(`_disable` / `_enable`) and the `DbgPrintEx` logging sink.  These are
modelled as an explicit state record plus an environment record carrying
the values the kernel returns (the processor count, the
`KeGetProcessorNumberFromIndex` outcome, and the three counter traces). -/

/-- `HIGH_LEVEL`, the highest IRQL on x64. -/
def HIGH_LEVEL : Nat := 15

/-- `STATUS_SUCCESS`. -/
def STATUS_SUCCESS : Nat := 0

/-- `PROCESSOR_NUMBER` as used by `main.c` (Group and Number fields). -/
structure PROCESSOR_NUMBER where
  Group : Nat
  Number : Nat
deriving Repr, DecidableEq

/-- `GROUP_AFFINITY` as filled in by `PerformTests`. -/
structure GROUP_AFFINITY where
  Group : Nat
  Mask : Nat
  Reserved : Nat × Nat × Nat
deriving Repr, DecidableEq

/-- One line emitted through the `Log` macro (`DbgPrintEx` with the
`[vmcheck]` tag): the load confirmation of `DriverEntry`, the lookup
failure message of `PerformTests`, or one formatted result line of
`PrintResults`. -/
inductive LogLine where
  | loaded (buildDate : String)
  | procLookupFailed
  | result (name : String) (calculated : Nat) (failed : Bool)
deriving Repr, DecidableEq

/-- Whether a log line is one of the three result lines of `PrintResults`. -/
def LogLine.isResult : LogLine → Bool
  | LogLine.result _ _ _ => true
  | _ => false

/-- Whether a log line is the lookup-failure message of `PerformTests`. -/
def LogLine.isFailure : LogLine → Bool
  | LogLine.procLookupFailed => true
  | _ => false

/-- The mutable kernel-visible state `main.c` touches: the calling thread's
group affinity, the IRQL, the interrupt-enable flag, the debug log, and the
global `testResults`. -/
structure KernelState where
  affinity : GROUP_AFFINITY
  irql : Nat
  interruptsEnabled : Bool
  log : List LogLine
  results : TestResults
deriving Repr, DecidableEq

/-- The values the environment supplies to one run: the active processor
count, the outcome of `KeGetProcessorNumberFromIndex` per index (`none`
models an unsuccessful `NTSTATUS`), the three counter read traces, and the
`__DATE__` build string. -/
structure Env where
  activeProcessorCount : Nat
  procNumberFromIndex : Nat → Option PROCESSOR_NUMBER
  rdtscRead : Nat → Nat
  tscMsrRead : Nat → Nat
  aperfRead : Nat → Nat
  buildDate : String

/-- `PerformTests` of `main.c`: looks up the last processor number; on
failure logs the failure message and returns; otherwise pins affinity to
that processor (saving the old affinity), raises IRQL to `HIGH_LEVEL`
(saving the original), disables interrupts, runs the three probes in order,
then re-enables interrupts, lowers IRQL to the saved value and reverts to
the saved affinity.  `none` propagates a division-by-zero probe (C UB). -/
def PerformTests (env : Env) (s : KernelState) : Option KernelState :=
  match env.procNumberFromIndex (env.activeProcessorCount - 1) with
  | none => some { s with log := s.log ++ [LogLine.procLookupFailed] }
  | some processorNumber =>
      let affinity : GROUP_AFFINITY :=
        { Group := processorNumber.Group,
          Mask := wrap (1 <<< processorNumber.Number),
          Reserved := (0, 0, 0) }
      let oldAffinity := s.affinity
      let s1 := { s with affinity := affinity }
      let originalIrql := s1.irql
      let s2 := { s1 with irql := HIGH_LEVEL }
      let s3 := { s2 with interruptsEnabled := false }
      match RdtscTiming env.rdtscRead s3.results with
      | none => none
      | some r1 =>
          match TimestampTiming env.tscMsrRead r1 with
          | none => none
          | some r2 =>
              let r3 := AperfTiming env.aperfRead r2
              some { s3 with results := r3,
                             interruptsEnabled := true,
                             irql := originalIrql,
                             affinity := oldAffinity }

/-- `PrintResults` of `main.c`: unconditionally logs the three result lines
from the global `testResults`. -/
def PrintResults (s : KernelState) : KernelState :=
  { s with log := s.log ++
      [LogLine.result "RDTSC with CPUID" s.results.RdtscCalculated
         s.results.RdtscFail,
       LogLine.result "MSR TIMESTAMP with CPUID" s.results.TimestampCalculated
         s.results.TimestampFail,
       LogLine.result "MSR APERF with CPUID" s.results.AperfCalculated
         s.results.AperfFail] }

/-- `DriverEntry` of `main.c`: logs the load-confirmation line, runs
`PerformTests`, then `PrintResults`, and returns `STATUS_SUCCESS`. -/
def DriverEntry (env : Env) (s : KernelState) : Option (Nat × KernelState) :=
  let s0 := { s with log := s.log ++ [LogLine.loaded env.buildDate] }
  match PerformTests env s0 with
  | none => none
  | some s1 => some (STATUS_SUCCESS, PrintResults s1)

/-! ## Concrete fixtures for witnesses and counterexamples -/

/-- A kernel state at passive level with interrupts enabled and the
zero-initialised global results, as at driver load. -/
def ks0 : KernelState :=
  { affinity := { Group := 0, Mask := 1, Reserved := (0, 0, 0) },
    irql := 0, interruptsEnabled := true, log := [],
    results := initialTestResults }

/-- Like `ks0` but with interrupts disabled before the call. -/
def ksDisabled : KernelState := { ks0 with interruptsEnabled := false }

/-- Environment whose processor-number lookup always fails. -/
def envFail : Env :=
  { activeProcessorCount := 4,
    procNumberFromIndex := fun _ => none,
    rdtscRead := fun k => k,
    tscMsrRead := fun k => k,
    aperfRead := fun k => k,
    buildDate := "Jan 01 2022" }

/-- Environment with a successful lookup and identity counter traces (each
read returns its own index, so every bracketed delta is exactly 1 tick). -/
def envOk : Env :=
  { envFail with procNumberFromIndex := fun _ => some { Group := 0, Number := 3 } }

/-- The APERF read trace of the spec's Scenario B: the raw MSR reads are 0
before and 15000 after the CPUID call. -/
def aperfReadScenarioB : Nat → Nat := fun k => if k = 0 then 0 else 15000

/-! ## Helper lemmas -/

/-- `U64` as a numeral. -/
theorem U64_eq : U64 = 18446744073709551616 := by norm_num [U64]

theorem wrap_eq_of_lt {a : Nat} (h : a < U64) : wrap a = a := Nat.mod_eq_of_lt h

theorem usub64_of_le {a b : Nat} (hb : b ≤ a) (ha : a < U64) :
    usub64 a b = a - b := by
  unfold usub64
  rw [Nat.mod_eq_of_lt ha, Nat.mod_eq_of_lt (lt_of_le_of_lt hb ha),
    Nat.add_sub_assoc hb, Nat.add_mod_left,
    Nat.mod_eq_of_lt (lt_of_le_of_lt (Nat.sub_le a b) ha)]

/-- On the identity trace every loop iteration contributes exactly one tick,
so the accumulated total is the iteration count. -/
theorem cpuidLoopTotal_onId (n : Nat) (h : 2 * n + 3 < U64) :
    cpuidLoopTotal (fun k => k) n = n := by
  induction n with
  | zero => rfl
  | succ i ih =>
      have hU : U64 = 18446744073709551616 := U64_eq
      have hi : 2 * i + 3 < U64 := by omega
      have h2 : 2 * i + 2 < U64 := by omega
      rw [cpuidLoopTotal, ih hi]
      rw [wrap_eq_of_lt hi, wrap_eq_of_lt h2, usub64_of_le (by omega) hi]
      have hd : 2 * i + 3 - (2 * i + 2) = 1 := by omega
      rw [hd, wrap_eq_of_lt (by omega)]

/-- `RdtscTiming` on the identity trace: calibration is 1 tick, the loop
total is 25000 ticks, so `calculated = 100000 * 25000 / 1`. -/
theorem RdtscTiming_onId (s : TestResults) :
    RdtscTiming (fun k => k) s =
      some { s with RdtscCalculated := 2500000000, RdtscFail := true } := by
  rw [RdtscTiming, cpuidLoopTotal_onId 25000 (by rw [U64_eq]; omega)]
  rfl

/-- `TimestampTiming` on the identity trace. -/
theorem TimestampTiming_onId (s : TestResults) :
    TimestampTiming (fun k => k) s =
      some { s with TimestampCalculated := 2500000000, TimestampFail := true } := by
  rw [TimestampTiming, cpuidLoopTotal_onId 25000 (by rw [U64_eq]; omega)]
  rfl

/-- `AperfTiming` on the identity trace: raw reads 0 and 1, shifted to 0 and
`2 ^ 32`, give `calculated = 2 ^ 32 = 4294967296`, which passes. -/
theorem AperfTiming_onId (s : TestResults) :
    AperfTiming (fun k => k) s =
      { s with AperfCalculated := 4294967296, AperfFail := false } := rfl

/-- The `testResults` produced by a full probe run over `envOk`'s traces
(all six fields are overwritten, so the outcome ignores the prior state). -/
def fullRunResults : TestResults :=
  { RdtscCalculated := 2500000000, RdtscFail := true,
    TimestampCalculated := 2500000000, TimestampFail := true,
    AperfCalculated := 4294967296, AperfFail := false }

/-- Full evaluation of `PerformTests` over `envOk`: all three probes run,
affinity and IRQL are restored, and interrupts end up enabled. -/
theorem PerformTests_envOk (s : KernelState) :
    PerformTests envOk s =
      some { s with interruptsEnabled := true, results := fullRunResults } := by
  have h25 : cpuidLoopTotal (fun k => k) 25000 = 25000 :=
    cpuidLoopTotal_onId 25000 (by rw [U64_eq]; omega)
  unfold PerformTests RdtscTiming TimestampTiming
  rw [show envOk.rdtscRead = (fun k => k) from rfl,
      show envOk.tscMsrRead = (fun k => k) from rfl, h25]
  rfl

/-- The state after a full `PerformTests` run from `ks0` over `envOk`. -/
def fullRunState : KernelState :=
  { ks0 with interruptsEnabled := true, results := fullRunResults }

/-- With a nonzero calibration the RDTSC classification step succeeds and
writes the normalized ratio and the strict `> 200` comparison. -/
theorem rdtscClassifyStep_eq (total calibration : Nat) (s : TestResults)
    (h : calibration ≠ 0) :
    rdtscClassifyStep total calibration s =
      some { s with
              RdtscCalculated := wrap (100000 * total) / calibration,
              RdtscFail :=
                decide (wrap (100000 * total) / calibration > 200) } := by
  simp [rdtscClassifyStep, udiv64, h]

/-- With a nonzero calibration the MSR-timestamp classification step
succeeds and writes the normalized ratio and the strict `> 300`
comparison. -/
theorem timestampClassifyStep_eq (total calibration : Nat) (s : TestResults)
    (h : calibration ≠ 0) :
    timestampClassifyStep total calibration s =
      some { s with
              TimestampCalculated := wrap (100000 * total) / calibration,
              TimestampFail :=
                decide (wrap (100000 * total) / calibration > 300) } := by
  simp [timestampClassifyStep, udiv64, h]

/-- On a failed processor-number lookup, `PerformTests` only appends the
failure log line. -/
theorem PerformTests_abort (env : Env) (s : KernelState)
    (h : env.procNumberFromIndex (env.activeProcessorCount - 1) = none) :
    PerformTests env s =
      some { s with log := s.log ++ [LogLine.procLookupFailed] } := by
  unfold PerformTests
  rw [h]

/-! ## Claims -/

/-- Claim C1: for the two ratio-based probes (RdtscTiming and
TimestampTiming) the classification arithmetic is a deterministic pure
function of the accumulated total and the calibration delta:
`calculated = (100000 * total) / calibration` in unsigned 64-bit
arithmetic, and repeated runs of the classification step on the same
`(total, calibration)` inputs yield identical result fields (same
calculated ratio, same fail flag) regardless of the prior state. -/
theorem ratio_classify_pure (total calibration : Nat) (s s' : TestResults)
    (h : calibration ≠ 0) :
    rdtscClassifyStep total calibration s =
      some { s with
              RdtscCalculated := wrap (100000 * total) / calibration,
              RdtscFail :=
                decide (wrap (100000 * total) / calibration > 200) } ∧
    timestampClassifyStep total calibration s =
      some { s with
              TimestampCalculated := wrap (100000 * total) / calibration,
              TimestampFail :=
                decide (wrap (100000 * total) / calibration > 300) } ∧
    (rdtscClassifyStep total calibration s).map
        (fun t => (t.RdtscCalculated, t.RdtscFail)) =
      (rdtscClassifyStep total calibration s').map
        (fun t => (t.RdtscCalculated, t.RdtscFail)) ∧
    (timestampClassifyStep total calibration s).map
        (fun t => (t.TimestampCalculated, t.TimestampFail)) =
      (timestampClassifyStep total calibration s').map
        (fun t => (t.TimestampCalculated, t.TimestampFail)) := by
  refine ⟨rdtscClassifyStep_eq total calibration s h,
          timestampClassifyStep_eq total calibration s h, ?_, ?_⟩
  · rw [rdtscClassifyStep_eq total calibration s h,
        rdtscClassifyStep_eq total calibration s' h]
    rfl
  · rw [timestampClassifyStep_eq total calibration s h,
        timestampClassifyStep_eq total calibration s' h]
    rfl

/-- Witness for C1 at `total = 2000`, `calibration = 1000000`. -/
theorem ratio_classify_pure_witness :
    rdtscClassifyStep 2000 1000000 initialTestResults =
      some { initialTestResults with
              RdtscCalculated := wrap (100000 * 2000) / 1000000,
              RdtscFail :=
                decide (wrap (100000 * 2000) / 1000000 > 200) } ∧
    timestampClassifyStep 2000 1000000 initialTestResults =
      some { initialTestResults with
              TimestampCalculated := wrap (100000 * 2000) / 1000000,
              TimestampFail :=
                decide (wrap (100000 * 2000) / 1000000 > 300) } ∧
    (rdtscClassifyStep 2000 1000000 initialTestResults).map
        (fun t => (t.RdtscCalculated, t.RdtscFail)) =
      (rdtscClassifyStep 2000 1000000 initialTestResults).map
        (fun t => (t.RdtscCalculated, t.RdtscFail)) ∧
    (timestampClassifyStep 2000 1000000 initialTestResults).map
        (fun t => (t.TimestampCalculated, t.TimestampFail)) =
      (timestampClassifyStep 2000 1000000 initialTestResults).map
        (fun t => (t.TimestampCalculated, t.TimestampFail)) :=
  ratio_classify_pure 2000 1000000 initialTestResults initialTestResults
    (by decide)

/-- Claim C2 counterexample: with raw APERF MSR reads 0 before and 15000
after the CPUID call, `calculated` is not the raw difference 15000 but the
shifted difference `15000 * 2 ^ 32 = 64424509440000` (the reads are
left-shifted 32 bits before differencing); the probe is still not failed. -/
theorem aperf_raw_difference_cex :
    (AperfTiming aperfReadScenarioB initialTestResults).AperfCalculated =
      64424509440000 ∧
    ¬ ((AperfTiming aperfReadScenarioB initialTestResults).AperfCalculated =
      15000) ∧
    (AperfTiming aperfReadScenarioB initialTestResults).AperfFail = false := by
  refine ⟨rfl, by decide, rfl⟩

/-- Claim C2 (amended): `calculated` equals the 64-bit difference of the two
counter readings each left-shifted by 32 bits; in particular raw reads
`start = 0` and `end = 15000` give `calculated = 15000 * 2 ^ 32` (not the
raw difference 15000) and the probe is not failed. -/
theorem aperf_shifted_difference (read : Nat → Nat) (s : TestResults) :
    (AperfTiming read s).AperfCalculated =
      usub64 (wrap (read 1 <<< 32)) (wrap (read 0 <<< 32)) ∧
    (AperfTiming read s).AperfFail =
      aperfFailCheck (usub64 (wrap (read 1 <<< 32)) (wrap (read 0 <<< 32))) ∧
    (AperfTiming aperfReadScenarioB s).AperfCalculated = 15000 * 2 ^ 32 ∧
    (AperfTiming aperfReadScenarioB s).AperfFail = false := by
  refine ⟨rfl, ?_, rfl, rfl⟩
  dsimp only [AperfTiming]

/-- Claim C3 counterexample: the APERF fail comparison (line 167,
`calculated < 10000`) classifies the boundary value 10000 itself as pass,
not fail. -/
theorem aperf_boundary_cex : aperfFailCheck 10000 = false := by decide

/-- Claim C3 (amended): a calculated value exactly at the boundary 10000 is
classified as pass; the APERF failed flag is true exactly when `calculated`
is strictly below 10000, and `AperfTiming`'s fail flag is this comparison
applied to its calculated value. -/
theorem aperf_boundary_strict :
    aperfFailCheck 10000 = false ∧
    (∀ calculated, aperfFailCheck calculated = true ↔ calculated < 10000) ∧
    ∀ read s, (AperfTiming read s).AperfFail =
      aperfFailCheck ((AperfTiming read s).AperfCalculated) := by
  refine ⟨by decide, fun calculated => ?_,
          fun read s => by dsimp only [AperfTiming]⟩
  simp [aperfFailCheck]

/-- Claim C4: the two greater-than fail comparisons are strict, so a ratio
exactly at the threshold passes: `total = 2000`, `calibration = 1000000`
give `calculated = 200` with `RdtscFail = false`, `total = 3000`,
`calibration = 1000000` give `calculated = 300` with
`TimestampFail = false`, and in general the fail flags decide
`calculated > 200` resp. `calculated > 300`. -/
theorem threshold_boundary_pass (s : TestResults) (total calibration : Nat)
    (h : calibration ≠ 0) :
    rdtscClassifyStep 2000 1000000 s =
      some { s with RdtscCalculated := 200, RdtscFail := false } ∧
    timestampClassifyStep 3000 1000000 s =
      some { s with TimestampCalculated := 300, TimestampFail := false } ∧
    (∀ t, rdtscClassifyStep total calibration s = some t →
        (t.RdtscFail = true ↔ 200 < t.RdtscCalculated)) ∧
    (∀ t, timestampClassifyStep total calibration s = some t →
        (t.TimestampFail = true ↔ 300 < t.TimestampCalculated)) := by
  refine ⟨rfl, rfl, ?_, ?_⟩
  · intro t ht
    rw [rdtscClassifyStep_eq total calibration s h] at ht
    injection ht with ht
    subst ht
    simp
  · intro t ht
    rw [timestampClassifyStep_eq total calibration s h] at ht
    injection ht with ht
    subst ht
    simp

/-- Witness for C4: boundary instances at `calibration = 1`. -/
theorem threshold_boundary_pass_witness :
    rdtscClassifyStep 2000 1000000 initialTestResults =
      some { initialTestResults with RdtscCalculated := 200,
                                     RdtscFail := false } ∧
    timestampClassifyStep 3000 1000000 initialTestResults =
      some { initialTestResults with TimestampCalculated := 300,
                                     TimestampFail := false } ∧
    (({ initialTestResults with RdtscCalculated := 200,
                                RdtscFail := false } : TestResults).RdtscFail =
        true ↔
      200 < ({ initialTestResults with
                RdtscCalculated := 200,
                RdtscFail := false } : TestResults).RdtscCalculated) :=
  ⟨(threshold_boundary_pass initialTestResults 0 1 (by decide)).1,
   (threshold_boundary_pass initialTestResults 0 1 (by decide)).2.1,
   (threshold_boundary_pass initialTestResults 2000 1000000
      (by decide)).2.2.1 _
     (threshold_boundary_pass initialTestResults 2000 1000000
      (by decide)).1⟩

/-- Claim C5: both ratio-based probes divide by the calibration delta with
no guard: the classification step is undefined (C division by zero) exactly
when `calibration = 0`, every trace whose calibration delta is zero makes
the whole probe undefined, and `calibration ≠ 0` suffices for the
classification to produce a result. -/
theorem calibration_zero_div :
    (∀ total s, rdtscClassifyStep total 0 s = none) ∧
    (∀ total s, timestampClassifyStep total 0 s = none) ∧
    (∀ read s, usub64 (wrap (read 1)) (wrap (read 0)) = 0 →
        RdtscTiming read s = none) ∧
    (∀ read s, usub64 (wrap (read 1)) (wrap (read 0)) = 0 →
        TimestampTiming read s = none) ∧
    (∀ total calibration s, calibration ≠ 0 →
        ∃ t, rdtscClassifyStep total calibration s = some t) ∧
    (∀ total calibration s, calibration ≠ 0 →
        ∃ t, timestampClassifyStep total calibration s = some t) := by
  refine ⟨fun total s => rfl, fun total s => rfl, ?_, ?_, ?_, ?_⟩
  · intro read s h
    show rdtscClassifyStep (cpuidLoopTotal read 25000)
      (usub64 (wrap (read 1)) (wrap (read 0))) s = none
    rw [h]
    rfl
  · intro read s h
    show timestampClassifyStep (cpuidLoopTotal read 25000)
      (usub64 (wrap (read 1)) (wrap (read 0))) s = none
    rw [h]
    rfl
  · intro total calibration s h
    exact ⟨_, rdtscClassifyStep_eq total calibration s h⟩
  · intro total calibration s h
    exact ⟨_, timestampClassifyStep_eq total calibration s h⟩

/-- Witness for C5: a constant trace has calibration delta 0 and makes the
probe undefined; calibration 1000000 yields a defined result. -/
theorem calibration_zero_div_witness :
    rdtscClassifyStep 7 0 initialTestResults = none ∧
    timestampClassifyStep 7 0 initialTestResults = none ∧
    RdtscTiming (fun _ => 5) initialTestResults = none ∧
    TimestampTiming (fun _ => 5) initialTestResults = none ∧
    rdtscClassifyStep 2000 1000000 initialTestResults ≠ none := by
  refine ⟨calibration_zero_div.1 7 initialTestResults,
          calibration_zero_div.2.1 7 initialTestResults,
          calibration_zero_div.2.2.1 (fun _ => 5) initialTestResults
            (by decide),
          calibration_zero_div.2.2.2.1 (fun _ => 5) initialTestResults
            (by decide), ?_⟩
  obtain ⟨t, ht⟩ :=
    calibration_zero_div.2.2.2.2.1 2000 1000000 initialTestResults (by decide)
  rw [ht]
  simp

/-- On a failed lookup `DriverEntry` still calls `PrintResults`: the final
log is the load line, the failure line, and the three result lines rendered
from the unchanged global results. -/
theorem DriverEntry_abort (env : Env) (s : KernelState)
    (h : env.procNumberFromIndex (env.activeProcessorCount - 1) = none) :
    DriverEntry env s =
      some (STATUS_SUCCESS,
        PrintResults { s with
          log := (s.log ++ [LogLine.loaded env.buildDate]) ++
                 [LogLine.procLookupFailed] }) := by
  unfold DriverEntry
  dsimp only []
  rw [PerformTests_abort env _ h]

/-- Claim C6: if the processor-number lookup fails, `PerformTests` logs the
failure message and returns without running any probe: the global
`testResults`, the thread affinity, the IRQL and the interrupt-enable state
are all left unchanged, and the log gains exactly the failure line. -/
theorem early_abort_no_probe (env : Env) (s : KernelState)
    (h : env.procNumberFromIndex (env.activeProcessorCount - 1) = none) :
    PerformTests env s =
      some { s with log := s.log ++ [LogLine.procLookupFailed] } ∧
    ∀ s1, PerformTests env s = some s1 →
      s1.results = s.results ∧ s1.affinity = s.affinity ∧
      s1.irql = s.irql ∧ s1.interruptsEnabled = s.interruptsEnabled ∧
      s1.log = s.log ++ [LogLine.procLookupFailed] := by
  refine ⟨PerformTests_abort env s h, fun s1 h1 => ?_⟩
  rw [PerformTests_abort env s h] at h1
  injection h1 with h1
  subst h1
  exact ⟨rfl, rfl, rfl, rfl, rfl⟩

/-- Witness for C6 on the failing-lookup fixture. -/
theorem early_abort_no_probe_witness :
    PerformTests envFail ks0 =
      some { ks0 with log := ks0.log ++ [LogLine.procLookupFailed] } :=
  (early_abort_no_probe envFail ks0 rfl).1

/-- Claim C7 counterexample: on the early-abort path the full driver run's
log does receive result lines — `DriverEntry` calls `PrintResults`
unconditionally, so next to the single failure line there are three result
lines (from the zero-initialised `testResults`), not zero. -/
theorem early_abort_log_cex :
    (DriverEntry envFail ks0).map
        (fun r => ((r.2.log.filter LogLine.isFailure).length,
                   (r.2.log.filter LogLine.isResult).length)) =
      some (1, 3) ∧
    ¬ ((DriverEntry envFail ks0).map
        (fun r => (r.2.log.filter LogLine.isResult).length) = some 0) := by
  constructor <;> decide

/-- Claim C7 (amended): on the early-abort path `PerformTests` itself emits
exactly one failure line and no result line, but `DriverEntry` then invokes
`PrintResults` unconditionally, so the complete run appends the load line,
the failure line, and the three result lines rendered from the prior
(zero-initialised) `testResults`. -/
theorem early_abort_log_lines (env : Env) (s : KernelState)
    (h : env.procNumberFromIndex (env.activeProcessorCount - 1) = none) :
    (∃ s1, PerformTests env s = some s1 ∧
        s1.log = s.log ++ [LogLine.procLookupFailed] ∧
        ([LogLine.procLookupFailed].filter LogLine.isFailure).length = 1 ∧
        ([LogLine.procLookupFailed].filter LogLine.isResult).length = 0) ∧
    ∃ r, DriverEntry env s = some r ∧
      r.2.log = s.log ++
        [LogLine.loaded env.buildDate, LogLine.procLookupFailed,
         LogLine.result "RDTSC with CPUID" s.results.RdtscCalculated
           s.results.RdtscFail,
         LogLine.result "MSR TIMESTAMP with CPUID"
           s.results.TimestampCalculated s.results.TimestampFail,
         LogLine.result "MSR APERF with CPUID" s.results.AperfCalculated
           s.results.AperfFail] := by
  refine ⟨⟨_, PerformTests_abort env s h, rfl, by decide, by decide⟩,
          ⟨_, DriverEntry_abort env s h, ?_⟩⟩
  simp [PrintResults]

/-- Witness for C7's amended claim on the failing-lookup fixture. -/
theorem early_abort_log_lines_witness :
    (DriverEntry envFail ks0).map (fun r => r.2.log) =
      some (ks0.log ++
        [LogLine.loaded envFail.buildDate, LogLine.procLookupFailed,
         LogLine.result "RDTSC with CPUID" ks0.results.RdtscCalculated
           ks0.results.RdtscFail,
         LogLine.result "MSR TIMESTAMP with CPUID"
           ks0.results.TimestampCalculated ks0.results.TimestampFail,
         LogLine.result "MSR APERF with CPUID" ks0.results.AperfCalculated
           ks0.results.AperfFail]) := by
  obtain ⟨-, r, hr, hlog⟩ := early_abort_log_lines envFail ks0 rfl
  simp [hr, hlog]

/-- Claim C8 counterexample: interrupts are not restored to their pre-call
value after a full probe run — starting with interrupts disabled, a
completed `PerformTests` ends with interrupts enabled (`_enable()` is
unconditional). -/
theorem interrupt_restore_cex :
    ksDisabled.interruptsEnabled = false ∧
    PerformTests envOk ksDisabled =
      some { ksDisabled with interruptsEnabled := true,
                             results := fullRunResults } ∧
    ({ ksDisabled with interruptsEnabled := true,
                       results := fullRunResults } :
        KernelState).interruptsEnabled = true :=
  ⟨rfl, PerformTests_envOk ksDisabled, rfl⟩

/-- Claim C8 (amended): after every completed `PerformTests` call the thread
group affinity and the IRQL are restored to their pre-call values; the
interrupt-enable state is unchanged on the early-abort path but is
unconditionally `true` after a full probe run — hence it equals its
pre-call value whenever interrupts were enabled before the call. -/
theorem isolation_restore (env : Env) (s s' : KernelState)
    (h : PerformTests env s = some s') :
    s'.affinity = s.affinity ∧ s'.irql = s.irql ∧
    (s.interruptsEnabled = true → s'.interruptsEnabled = s.interruptsEnabled) ∧
    (env.procNumberFromIndex (env.activeProcessorCount - 1) = none →
        s'.interruptsEnabled = s.interruptsEnabled) ∧
    ((env.procNumberFromIndex (env.activeProcessorCount - 1)).isSome = true →
        s'.interruptsEnabled = true) := by
  unfold PerformTests at h
  split at h
  next heq =>
    injection h with h
    subst h
    refine ⟨rfl, rfl, fun _ => rfl, fun _ => rfl, fun hs => ?_⟩
    rw [heq] at hs
    simp at hs
  next pn heq =>
    dsimp only [] at h
    split at h
    · exact absurd h (by simp)
    · split at h
      · exact absurd h (by simp)
      · injection h with h
        subst h
        refine ⟨rfl, rfl, fun hs => hs.symm, fun hn => ?_, fun _ => rfl⟩
        rw [heq] at hn
        exact Option.noConfusion hn

/-- Witness for C8's amended claim: affinity and IRQL restored and
interrupts enabled after the full run over `envOk` from `ks0`. -/
theorem isolation_restore_witness :
    fullRunState.affinity = ks0.affinity ∧ fullRunState.irql = ks0.irql ∧
    fullRunState.interruptsEnabled = true := by
  have happ := isolation_restore envOk ks0 fullRunState
    (by rw [PerformTests_envOk]; rfl)
  exact ⟨happ.1, happ.2.1, happ.2.2.2.2 rfl⟩

/-- Claim C9: `DriverEntry` returns `STATUS_SUCCESS` on every execution
path that completes (including the failed-lookup path). -/
theorem driver_entry_success (env : Env) (s : KernelState)
    (r : Nat × KernelState) (h : DriverEntry env s = some r) :
    r.1 = STATUS_SUCCESS := by
  unfold DriverEntry at h
  dsimp only [] at h
  split at h
  · exact absurd h (by simp)
  · injection h with h
    subst h
    rfl

/-- The result of `DriverEntry` on the failing-lookup fixture. -/
def driverRunOnFail : Nat × KernelState :=
  (DriverEntry envFail ks0).getD (1, ks0)

/-- Witness for C9 on the failing-lookup path. -/
theorem driver_entry_success_witness : driverRunOnFail.1 = STATUS_SUCCESS :=
  driver_entry_success envFail ks0 driverRunOnFail rfl

/-- Claim C10: `AperfCalculated` is always a multiple of `2 ^ 32` (its low
32 bits are zero), because both APERF MSR reads are left-shifted by 32 bits
before the 64-bit differencing. -/
theorem aperf_low_bits_zero (read : Nat → Nat) (s : TestResults) :
    (AperfTiming read s).AperfCalculated % 2 ^ 32 = 0 := by
  have hproj : (AperfTiming read s).AperfCalculated =
      usub64 (wrap (read 1 <<< 32)) (wrap (read 0 <<< 32)) := by
    dsimp only [AperfTiming]
  rw [hproj, Nat.shiftLeft_eq, Nat.shiftLeft_eq,
      show (2 : Nat) ^ 32 = 4294967296 from by norm_num]
  unfold usub64 wrap U64
  rw [show (2 : Nat) ^ 64 = 18446744073709551616 from by norm_num]
  omega
